import Mathlib

/-!
# Verification of the research-paper-summarizer frontend

Shallow embedding of the client-side logic of the repository:

* `src/frontend/app/results/[jobId]/page.tsx` — the results page: a
  status-polling state machine (`fetchData`, the 3000 ms polling interval,
  the 500 ms progress timer, the effect cleanup) and its render function.
* `src/frontend/components/ModelFile.tsx` — the `ModelFile` card and the
  `ChatPanel` component (chat history fetching, message sending, panel
  resizing).
* `src/unnamed/part_001` — the `ArchitectureDeepDive` card.

React `useState` cells become fields of an explicit state record; each
handler becomes a function from state (plus the network response it
observed) to state; `setInterval` timers are modelled by activity flags
plus an event alphabet, so that arbitrary interleavings of the poll
handler and the progress timer are lists of events folded over the state.
JSX output is abstracted to a view datatype recording the branch taken and
the dynamic data each branch displays.
-/

/-! ## Data model: API response shapes (spec section 3 / section 6) -/

/-- Title/authors metadata of an analysis result (`data.result.metadata`). -/
structure ResultMetadata where
  title : String
  authors : String
deriving DecidableEq, Repr

/-- An analysis result as consumed by the frontend: the page destructures
`metadata, key_concepts, problem_statement, full_explanation, pseudo_code`
from `data.result`; the spec's data model also lists an architecture
breakdown and generated model-file text, consumed (if at all) by the
`ArchitectureDeepDive` and `ModelFile` components. The payloads passed to
rendering components are opaque JSON, modelled as strings. -/
structure AnalysisResult where
  metadata : ResultMetadata
  key_concepts : String
  problem_statement : String
  full_explanation : String
  pseudo_code : String
  architecture_breakdown : String
  model_file : String
deriving DecidableEq, Repr

/-- The job record returned by `GET /api/status/{jobId}`: per the spec a
job record carries `(id, status, progress, optional error)`; the page
additionally reads `filename` and `result`. -/
structure StatusResponse where
  id : String
  status : String
  progress : Option Nat
  filename : Option String
  error : Option String
  result : Option AnalysisResult
deriving DecidableEq, Repr

/-! ## Results page state (`page.tsx`) -/

/-- The `useState` cells of `ResultsPage`, together with the local
`progressCounter` variable of the effect and the liveness of the two
`setInterval` timers (a cleared interval no longer fires its callback). -/
structure PageState where
  loading : Bool
  data : Option StatusResponse
  error : Option String
  progress : Nat
  statusMessage : String
  progressCounter : Nat
  pollingActive : Bool
  progressTimerActive : Bool
deriving DecidableEq, Repr

/-- Initial state on mount: `useState` defaults, both intervals armed by
the effect body. -/
def initPageState : PageState :=
  { loading := true
    data := none
    error := none
    progress := 0
    statusMessage := "Initializing analysis..."
    progressCounter := 0
    pollingActive := true
    progressTimerActive := true }

/-- Outcome of one `fetch` of the status endpoint: a JSON response, a
non-ok HTTP status (which `fetchData` turns into a thrown error), or a
network failure. -/
inductive FetchOutcome where
  | ok (resp : StatusResponse)
  | httpError (code : Nat)
  | networkError
deriving DecidableEq, Repr

/-- `Math.floor(Math.random() * 5) + 1` for a random seed `r`: a value in
`{1, ..., 5}`. -/
def randIncrement (r : Nat) : Nat := r % 5 + 1

/-- The generic connection-failure message set by the `catch` block. -/
def connectErrorMessage : String :=
  "Failed to connect to analysis server. Please try again later."

/-- The poll handler `fetchData` of `ResultsPage` (lines 25-59 of
`page.tsx`), as a function of the fetch outcome and the random seed used
by `Math.random()`. -/
def fetchData (s : PageState) (o : FetchOutcome) (r : Nat) : PageState :=
  match o with
  | .ok resp =>
    if resp.status = "completed" then
      { s with data := some resp, loading := false, pollingActive := false }
    else if resp.status = "in_progress" then
      let s1 := { s with statusMessage :=
        "Analyzing paper: " ++ resp.filename.getD "your document" }
      if s1.progressCounter < 90 then
        let c := s1.progressCounter + randIncrement r
        { s1 with progressCounter := c, progress := min c 90 }
      else s1
    else if resp.status = "failed" then
      { s with
          error := some ("Analysis failed: " ++ resp.error.getD "Unknown error")
          loading := false
          pollingActive := false }
    else s
  | .httpError _ =>
      { s with error := some connectErrorMessage, loading := false
               pollingActive := false }
  | .networkError =>
      { s with error := some connectErrorMessage, loading := false
               pollingActive := false }

/-- The 500 ms progress timer callback (lines 64-69 of `page.tsx`). -/
def progressTick (s : PageState) : PageState :=
  if s.progressCounter < 90 then
    { s with progressCounter := s.progressCounter + 1
             progress := s.progressCounter + 1 }
  else s

/-- The effect cleanup (lines 71-75): both intervals are cleared. -/
def cleanupPage (s : PageState) : PageState :=
  { s with pollingActive := false, progressTimerActive := false }

/-- One scheduler event: a firing of the polling callback (with the fetch
outcome it observes and a random seed) or a firing of the progress timer. -/
inductive PageEvent where
  | poll (o : FetchOutcome) (r : Nat)
  | tick
deriving DecidableEq, Repr

/-- Small-step semantics of the page: a cleared interval does not fire its
callback, so events are ignored once the corresponding flag is down. -/
def pageStep (s : PageState) (e : PageEvent) : PageState :=
  match e with
  | .poll o r => if s.pollingActive then fetchData s o r else s
  | .tick => if s.progressTimerActive then progressTick s else s

/-- Run an arbitrary interleaving of poll and timer events. -/
def runPage (s : PageState) (es : List PageEvent) : PageState :=
  es.foldl pageStep s

/-- The polling interval delay passed to `setInterval(fetchData, 3000)`. -/
def pollIntervalMs : Nat := 3000

/-- The progress timer delay passed to `setInterval(..., 500)`. -/
def progressIntervalMs : Nat := 500

/-- Firing time of the `n`-th polling-interval callback after the initial
direct `fetchData()` call at time 0: `setInterval` with a fixed delay
fires at constant spacing `pollIntervalMs`. -/
def pollTime (n : Nat) : Nat := pollIntervalMs * n

/-- The status endpoint URL the page fetches. -/
def statusRequestURL (jobId : String) : String :=
  "http://localhost:8000/api/status/" ++ jobId

/-- Whether a firing of the polling interval issues a status request: the
callback body fetches unconditionally whenever the interval is live (there
is no in-flight-request guard in the code). -/
def pollIssuesRequest (s : PageState) : Bool := s.pollingActive

/-! ## Results page render (`page.tsx`, lines 77-173) -/

/-- The analysis panels composed by the completed-results JSX, plus the
two further panels the spec speaks about whose components exist in the
codebase (`ArchitectureDeepDive` in `src/unnamed/part_001`, `ModelFile`
in `ModelFile.tsx`). -/
inductive Panel where
  | keyConcepts
  | problemStatement
  | fullExplanation
  | pseudoCode
  | architectureDeepDive
  | modelFile
deriving DecidableEq, Repr

/-- The panels the completed-results JSX actually mounts, in order. -/
def resultPanels : List Panel :=
  [.keyConcepts, .problemStatement, .fullExplanation, .pseudoCode]

/-- Abstraction of the three render branches of `ResultsPage`: the loading
view (Loader message, progress bar width, job id), the "Analysis not
found" fallback, and the completed-result view (title, authors, mounted
panels). -/
inductive PageView where
  | loadingView (statusMessage : String) (progress : Nat) (jobId : String)
  | notFoundView
  | resultView (title : String) (authors : String) (panels : List Panel)
deriving DecidableEq, Repr

/-- Render function of `ResultsPage`: `if (loading) ...`, then
`if (!data || !data.result) ...`, else the result layout destructured from
`data.result`. -/
def renderPage (jobId : String) (s : PageState) : PageView :=
  if s.loading then .loadingView s.statusMessage s.progress jobId
  else
    match s.data with
    | none => .notFoundView
    | some d =>
      match d.result with
      | none => .notFoundView
      | some res =>
        .resultView res.metadata.title res.metadata.authors resultPanels

/-- The static text nodes displayed by each render branch of `page.tsx`,
with the dynamic strings interpolated; used to ask whether a given string
is displayed by the page. -/
def viewTexts : PageView → List String
  | .loadingView m _ jobId =>
      ["← Back to Home", "Job ID: " ++ jobId, m,
       "Uploading", "Analyzing", "Formatting"]
  | .notFoundView =>
      ["Analysis Results", "Analysis not found",
       "The requested analysis could not be found or has not been completed yet.",
       "Try another paper"]
  | .resultView title authors _ =>
      ["Paper Analysis", "Analyze another paper", title, authors]

/-! ## Chat panel (`ModelFile.tsx`, `ChatPanel` component) -/

/-- The JavaScript `String.prototype.trim()` used by the blank-message
guard: strip leading and trailing whitespace. -/
def jsTrim (s : String) : String :=
  ⟨((s.data.dropWhile Char.isWhitespace).reverse.dropWhile
      Char.isWhitespace).reverse⟩

/-- A chat message: timestamp, the user's query, the assistant response. -/
structure ChatMessage where
  timestamp : String
  query : String
  response : String
deriving DecidableEq, Repr

/-- The `useState` cells of `ChatPanel`. -/
structure ChatState where
  isOpen : Bool
  chatHistory : List ChatMessage
  message : String
  isLoading : Bool
  panelWidth : Int
  isResizing : Bool
deriving DecidableEq, Repr

/-- Initial state of `ChatPanel` on mount. -/
def initChatState : ChatState :=
  { isOpen := false
    chatHistory := []
    message := ""
    isLoading := false
    panelWidth := 384
    isResizing := false }

/-- `const minWidth = 320`. -/
def minWidth : Int := 320

/-- `const maxWidth = 1200`. -/
def maxWidth : Int := 1200

/-- Outcome of `GET /api/jobs/{jobId}/chat`: a JSON body whose
`chat_history` field may be absent (`data.chat_history || []`), or a
failed fetch (non-ok status or network error, both reach the catch). -/
inductive ChatFetchOutcome where
  | ok (chat_history : Option (List ChatMessage))
  | fail
deriving DecidableEq, Repr

/-- `fetchChatHistory` (lines 90-103): on success replace the history with
the server log (or `[]`); the catch block only logs, changing nothing. -/
def fetchChatHistory (s : ChatState) (o : ChatFetchOutcome) : ChatState :=
  match o with
  | .ok h => { s with chatHistory := h.getD [] }
  | .fail => s

/-- JSON body of the chat POST: `JSON.stringify({ message: ... })`. -/
structure ChatPostBody where
  message : String
deriving DecidableEq, Repr

/-- The chat POST request issued by `sendMessage`. -/
structure ChatPostRequest where
  url : String
  method : String
  body : ChatPostBody
deriving DecidableEq, Repr

/-- The chat endpoint URL. -/
def chatRequestURL (jobId : String) : String :=
  "http://localhost:8000/api/jobs/" ++ jobId ++ "/chat"

/-- Outcome of the chat POST (a non-ok status is thrown, so it lands in
the same catch as a network error). -/
inductive PostOutcome where
  | ok
  | fail
deriving DecidableEq, Repr

/-- The static apology written into the last entry when the POST fails. -/
def apologyMessage : String :=
  "Sorry, there was an error processing your request. Please try again."

/-- The optimistic entry appended before the POST: current timestamp, the
query, and an empty response. -/
def pendingEntry (now text : String) : ChatMessage :=
  { timestamp := now, query := text, response := "" }

/-- `updated[lastIndex] = { ...updated[lastIndex], response: ... }` guarded
by `lastIndex >= 0`: rewrite the last entry of the history, if any. -/
def updateLast (hist : List ChatMessage) (f : ChatMessage → ChatMessage) :
    List ChatMessage :=
  match hist.getLast? with
  | none => hist
  | some last => hist.dropLast ++ [f last]

/-- The synchronous prefix of `sendMessage` (lines 105-127): the blank
guard, clearing the input, setting the loading flag, appending the
pending entry, and issuing the POST request. Returns the updated state
and the request, or `none` when the guard returned early. -/
def sendMessageStart (jobId : String) (s : ChatState) (now : String) :
    ChatState × Option ChatPostRequest :=
  if (jsTrim s.message).isEmpty then (s, none)
  else
    ({ s with
        message := ""
        isLoading := true
        chatHistory := s.chatHistory ++ [pendingEntry now s.message] },
     some { url := chatRequestURL jobId, method := "POST"
            body := { message := s.message } })

/-- The continuation of `sendMessage` after the POST settles: on success
re-fetch the history (lines 133-134); on failure rewrite the last entry's
response to the apology (lines 136-148); `finally` clears the flag. -/
def sendMessageFinish (s : ChatState) (post : PostOutcome)
    (g : ChatFetchOutcome) : ChatState :=  match post with
  | .ok => { fetchChatHistory s g with isLoading := false }
  | .fail =>
      { s with
          chatHistory := updateLast s.chatHistory
            (fun m => { m with response := apologyMessage })
          isLoading := false }

/-- The whole `sendMessage` handler, parametrised by the POST outcome and
(on success) the outcome of the follow-up history GET. -/
def sendMessage (jobId : String) (s : ChatState) (now : String)
    (post : PostOutcome) (g : ChatFetchOutcome) :
    ChatState × Option ChatPostRequest :=
  match sendMessageStart jobId s now with
  | (_, none) => (s, none)
  | (s1, some req) => (sendMessageFinish s1 post g, some req)

/-- `handleMouseMove` (lines 165-174): ignore unless resizing; compute
`newWidth = window.innerWidth - e.clientX` and adopt it only within
`[minWidth, maxWidth]`. -/
def handleMouseMove (s : ChatState) (innerWidth clientX : Int) : ChatState :=
  if s.isResizing then
    let newWidth := innerWidth - clientX
    if minWidth ≤ newWidth ∧ newWidth ≤ maxWidth then
      { s with panelWidth := newWidth }
    else s
  else s

/-- `handleMouseUp`: stop resizing. -/
def handleMouseUp (s : ChatState) : ChatState := { s with isResizing := false }

/-- `startResizing`: begin resizing. -/
def startResizing (s : ChatState) : ChatState := { s with isResizing := true }

/-- `togglePanel`: flip the open flag. -/
def togglePanel (s : ChatState) : ChatState := { s with isOpen := !s.isOpen }

/-- `onChange` of the textarea: replace the draft message. -/
def setDraft (s : ChatState) (text : String) : ChatState :=
  { s with message := text }

/-- Event alphabet of the chat panel. -/
inductive ChatEvent where
  | send (jobId now : String) (post : PostOutcome) (g : ChatFetchOutcome)
  | historyFetch (o : ChatFetchOutcome)
  | mouseMove (innerWidth clientX : Int)
  | mouseUp
  | resizeStart
  | toggle
  | draft (text : String)
deriving Repr

/-- One chat-panel step. -/
def chatStep (s : ChatState) (e : ChatEvent) : ChatState :=
  match e with
  | .send jobId now post g => (sendMessage jobId s now post g).1
  | .historyFetch o => fetchChatHistory s o
  | .mouseMove iw cx => handleMouseMove s iw cx
  | .mouseUp => handleMouseUp s
  | .resizeStart => startResizing s
  | .toggle => togglePanel s
  | .draft t => setDraft s t

/-- Run a sequence of chat-panel events. -/
def runChat (s : ChatState) (es : List ChatEvent) : ChatState :=
  es.foldl chatStep s

/-! ## Concrete fixtures -/

/-- A sample analysis result. -/
def sampleResult : AnalysisResult :=
  { metadata := { title := "Attention Is All You Need", authors := "Vaswani et al." }
    key_concepts := "kc"
    problem_statement := "ps"
    full_explanation := "fe"
    pseudo_code := "pc"
    architecture_breakdown := "arch"
    model_file := "import torch" }

/-- A sample completed status response carrying a result. -/
def completedResponse : StatusResponse :=
  { id := "job1", status := "completed", progress := some 100
    filename := some "paper.pdf", error := none, result := some sampleResult }

/-- A sample in-progress status response whose server-side progress is 50. -/
def inProgressResponse : StatusResponse :=
  { id := "job1", status := "in_progress", progress := some 50
    filename := none, error := none, result := none }

/-- A sample failed status response. -/
def failedResponse : StatusResponse :=
  { id := "job1", status := "failed", progress := none
    filename := none, error := some "parse error", result := none }

/-- A chat state holding a non-blank draft message. -/
def chatStateWithDraft : ChatState :=
  { initChatState with message := "What is attention?" }

/-- A chat state holding a whitespace-only draft message. -/
def chatStateBlankDraft : ChatState :=
  { initChatState with message := "   " }

/-- A sample server-side conversation log. -/
def serverLog : List ChatMessage :=
  [{ timestamp := "2026-01-01T00:00:00Z", query := "What is attention?"
     response := "A weighting mechanism." }]

/-- Whether a fetch outcome reaches the catch block of `fetchData`: a
non-ok HTTP response (thrown) or a network error. -/
def isFetchFailure : FetchOutcome → Bool
  | .ok _ => false
  | .httpError _ => true
  | .networkError => true

/-- Run `n` consecutive firings of the polling callback, the `k`-th
observing response `f k` with random seed `g k`. -/
def runPolls (f : Nat → StatusResponse) (g : Nat → Nat) (s : PageState) :
    Nat → PageState
  | 0 => s
  | n + 1 => pageStep (runPolls f g s n) (.poll (.ok (f n)) (g n))

/-- Invariant tying the displayed progress to the local counter: the
rendered progress is always the counter capped at 90. -/
def progressInv (s : PageState) : Prop :=
  s.progress = min s.progressCounter 90

/-- Bounds invariant on the chat panel width. -/
def widthInv (s : ChatState) : Prop :=
  minWidth ≤ s.panelWidth ∧ s.panelWidth ≤ maxWidth

/-! ## C1 -/

/-- C1: whenever a `GET /api/status/{jobId}` response has status
`completed`, the poll handler stops the polling interval, stores the
response as `data`, leaves the loading state, and the page renders the
result view whose title comes from the result's metadata. -/
theorem c1_completed_stops_polling_and_renders_title
    (jobId : String) (s : PageState) (resp : StatusResponse) (r : Nat)
    (hc : resp.status = "completed") :
    (fetchData s (.ok resp) r).pollingActive = false ∧
    (fetchData s (.ok resp) r).data = some resp ∧
    (fetchData s (.ok resp) r).loading = false ∧
    (∀ res, resp.result = some res →
      renderPage jobId (fetchData s (.ok resp) r) =
        .resultView res.metadata.title res.metadata.authors resultPanels) := by
  refine ⟨by simp [fetchData, hc], by simp [fetchData, hc],
    by simp [fetchData, hc], ?_⟩
  intro res hres
  simp [fetchData, hc, renderPage, hres]

/-- C1 witness: the sample completed response, polled from the initial
state, yields a stopped poller and the rendered title. -/
theorem c1_completed_witness :
    (fetchData initPageState (.ok completedResponse) 0).pollingActive = false ∧
    (fetchData initPageState (.ok completedResponse) 0).data =
      some completedResponse ∧
    (fetchData initPageState (.ok completedResponse) 0).loading = false ∧
    renderPage "job1" (fetchData initPageState (.ok completedResponse) 0) =
      .resultView "Attention Is All You Need" "Vaswani et al." resultPanels := by
  obtain ⟨h1, h2, h3, h4⟩ :=
    c1_completed_stops_polling_and_renders_title "job1" initPageState
      completedResponse 0 rfl
  exact ⟨h1, h2, h3, h4 sampleResult rfl⟩

/-! ## C2 -/

/-- C2 counterexample: an `in_progress` response reporting server progress
50, polled from the initial state, renders progress 1 (the local counter
bumped by the random increment), not the server's 50. -/
theorem c2_counterexample :
    inProgressResponse.status = "in_progress" ∧
    inProgressResponse.progress = some 50 ∧
    renderPage "job1" (pageStep initPageState (.poll (.ok inProgressResponse) 0)) =
      .loadingView "Analyzing paper: your document" 1 "job1" ∧
    (1 : Nat) ≠ 50 := by
  refine ⟨rfl, rfl, rfl, by decide⟩

/-- C2 amended: the progress the page displays for an in-progress job is
synthesized locally — on each `in_progress` poll the local counter grows
by a pseudo-random 1..5 and the displayed progress is that counter capped
at 90 — and the handler's result does not depend on the server-reported
`progress` field of the response. -/
theorem c2_amended_progress_is_local
    (s : PageState) (resp : StatusResponse) (r : Nat) (p : Option Nat)
    (h : resp.status = "in_progress") :
    (fetchData s (.ok resp) r).progress =
      (if s.progressCounter < 90
        then min (s.progressCounter + randIncrement r) 90
        else s.progress) ∧
    fetchData s (.ok { resp with progress := p }) r = fetchData s (.ok resp) r := by
  constructor
  · by_cases hc : s.progressCounter < 90 <;> simp [fetchData, h, hc]
  · cases resp
    simp_all [fetchData]

/-- C2 amended witness: at the sample in-progress response (server
progress 50) and seed 0, the displayed progress is `min (0 + 1) 90 = 1`,
and replacing the server progress field by 7 changes nothing. -/
theorem c2_amended_witness :
    (fetchData initPageState (.ok inProgressResponse) 0).progress = 1 ∧
    fetchData initPageState (.ok { inProgressResponse with progress := some 7 }) 0 =
      fetchData initPageState (.ok inProgressResponse) 0 := by
  obtain ⟨h1, h2⟩ :=
    c2_amended_progress_is_local initPageState inProgressResponse 0 (some 7) rfl
  exact ⟨by simpa using h1, h2⟩

/-! ## C3 -/

/-- C3 counterexample: a completed response carrying a full result (with
architecture breakdown and model-file text present) renders only the four
panels `key concepts, problem statement, full explanation, pseudo-code`;
the architecture deep-dive and model-file panels are not among those the
results page mounts. -/
theorem c3_counterexample :
    completedResponse.status = "completed" ∧
    completedResponse.result = some sampleResult ∧
    renderPage "job1" (fetchData initPageState (.ok completedResponse) 0) =
      .resultView "Attention Is All You Need" "Vaswani et al." resultPanels ∧
    Panel.architectureDeepDive ∉ resultPanels ∧
    Panel.modelFile ∉ resultPanels := by
  exact ⟨rfl, rfl, rfl, by decide, by decide⟩

/-- C3 amended: for every completed status response with a result, the
results page renders the title/authors header and exactly the four panels
key concepts, problem statement, full explanation and pseudo-code; the
`ArchitectureDeepDive` and `ModelFile` components exist in the codebase
but are not mounted by the results page. -/
theorem c3_amended_four_panels
    (jobId : String) (s : PageState) (resp : StatusResponse) (r : Nat)
    (res : AnalysisResult)
    (hc : resp.status = "completed") (hr : resp.result = some res) :
    renderPage jobId (fetchData s (.ok resp) r) =
      .resultView res.metadata.title res.metadata.authors
        [.keyConcepts, .problemStatement, .fullExplanation, .pseudoCode] := by
  simp [fetchData, hc, renderPage, hr, resultPanels]

/-- C3 amended witness: the sample completed response renders the four
panels. -/
theorem c3_amended_witness :
    renderPage "job1" (fetchData initPageState (.ok completedResponse) 0) =
      .resultView "Attention Is All You Need" "Vaswani et al."
        [.keyConcepts, .problemStatement, .fullExplanation, .pseudoCode] :=
  c3_amended_four_panels "job1" initPageState completedResponse 0 sampleResult
    rfl rfl

/-! ## C4 -/

/-- C4 counterexample: after a network failure polled from the initial
state, the page stores the static connection-error message in its `error`
cell, but the rendered view is the "Analysis not found" fallback and the
stored error message appears nowhere in the displayed text: the error
state is never rendered. -/
theorem c4_counterexample :
    (fetchData initPageState .networkError 0).error =
      some connectErrorMessage ∧
    renderPage "job1" (fetchData initPageState .networkError 0) =
      .notFoundView ∧
    connectErrorMessage ∉
      viewTexts (renderPage "job1" (fetchData initPageState .networkError 0)) := by
  exact ⟨rfl, rfl, by decide⟩

/-- C4 amended: on any failed status fetch (network error or non-ok HTTP
response) the page performs no retry — it clears the loading state, stops
the polling interval (so a later poll event is a no-op), stores a static
error message in component state and leaves `data` unchanged — and on a
`failed` job status it does the same with the `Analysis failed:` message;
in both cases, when the stored data has no result the rendered UI is the
static "Analysis not found" fallback, and the stored error message itself
is not part of the displayed text. -/
theorem c4_amended_failure_handling
    (jobId : String) (s : PageState) (o : FetchOutcome) (r r2 : Nat)
    (resp : StatusResponse)
    (ho : isFetchFailure o = true) (hf : resp.status = "failed") :
    ((fetchData s o r).loading = false ∧
     (fetchData s o r).pollingActive = false ∧
     (fetchData s o r).error = some connectErrorMessage ∧
     (fetchData s o r).data = s.data ∧
     (∀ e, pageStep (fetchData s o r) (.poll e r2) = fetchData s o r) ∧
     (s.data = none → renderPage jobId (fetchData s o r) = .notFoundView)) ∧
    ((fetchData s (.ok resp) r).loading = false ∧
     (fetchData s (.ok resp) r).pollingActive = false ∧
     (fetchData s (.ok resp) r).error =
       some ("Analysis failed: " ++ resp.error.getD "Unknown error") ∧
     (fetchData s (.ok resp) r).data = s.data ∧
     (∀ e, pageStep (fetchData s (.ok resp) r) (.poll e r2) =
        fetchData s (.ok resp) r) ∧
     (s.data = none →
        renderPage jobId (fetchData s (.ok resp) r) = .notFoundView)) ∧
    connectErrorMessage ∉ viewTexts .notFoundView := by
  refine ⟨?_, ?_, by decide⟩
  · cases o with
    | ok resp2 => simp [isFetchFailure] at ho
    | httpError c =>
        refine ⟨rfl, rfl, rfl, rfl, ?_, ?_⟩
        · intro e; simp [pageStep, fetchData]
        · intro hd; simp [renderPage, fetchData, hd]
    | networkError =>
        refine ⟨rfl, rfl, rfl, rfl, ?_, ?_⟩
        · intro e; simp [pageStep, fetchData]
        · intro hd; simp [renderPage, fetchData, hd]
  · refine ⟨?_, ?_, ?_, ?_, ?_, ?_⟩ <;> simp [fetchData, hf, pageStep, renderPage]
    intro hd
    simp [hd]

/-- C4 amended witness: the sample failed response, polled from the
initial state, stops polling, surfaces the failed-analysis message in
state, and renders the "Analysis not found" fallback. -/
theorem c4_amended_witness :
    (fetchData initPageState (.ok failedResponse) 0).pollingActive = false ∧
    (fetchData initPageState (.ok failedResponse) 0).error =
      some "Analysis failed: parse error" ∧
    renderPage "job1" (fetchData initPageState (.ok failedResponse) 0) =
      .notFoundView ∧
    (fetchData initPageState .networkError 0).loading = false := by
  obtain ⟨h1, h2, _⟩ :=
    c4_amended_failure_handling "job1" initPageState .networkError 0 0
      failedResponse rfl rfl
  exact ⟨h2.2.1, h2.2.2.1, h2.2.2.2.2.2 rfl, h1.1⟩

/-! ## C5 and C8: chat message flow -/

/-- Rewriting the last entry of a non-empty history touches only that
entry. -/
theorem updateLast_concat (l : List ChatMessage) (x : ChatMessage)
    (f : ChatMessage → ChatMessage) :
    updateLast (l ++ [x]) f = l ++ [f x] := by
  simp [updateLast, List.getLast?_concat, List.dropLast_concat]

/-- C5: sending a non-blank message posts exactly the draft text in the
`message` field of the POST body to `/api/jobs/{jobId}/chat`, first
appends a pending entry (current timestamp, the query, empty response) to
the local history, and when the POST and the follow-up history GET both
succeed the local history is replaced by the server's log. -/
theorem c5_send_message_flow
    (jobId : String) (s : ChatState) (now : String) (log : List ChatMessage)
    (h : (jsTrim s.message).isEmpty = false) :
    (sendMessageStart jobId s now).1.chatHistory =
      s.chatHistory ++ [pendingEntry now s.message] ∧
    (sendMessage jobId s now .ok (.ok (some log))).2 =
      some { url := chatRequestURL jobId, method := "POST"
             body := { message := s.message } } ∧
    (sendMessage jobId s now .ok (.ok (some log))).1.chatHistory = log := by
  refine ⟨?_, ?_, ?_⟩ <;>
    simp [sendMessage, sendMessageStart, sendMessageFinish, fetchChatHistory, h]

/-- C5 witness: a concrete draft flows through a successful POST and GET,
ending with the server log as local history. -/
theorem c5_send_message_witness :
    (sendMessageStart "job1" chatStateWithDraft "t0").1.chatHistory =
      [pendingEntry "t0" "What is attention?"] ∧
    (sendMessage "job1" chatStateWithDraft "t0" .ok (.ok (some serverLog))).2 =
      some { url := "http://localhost:8000/api/jobs/job1/chat", method := "POST"
             body := { message := "What is attention?" } } ∧
    (sendMessage "job1" chatStateWithDraft "t0" .ok (.ok (some serverLog))).1.chatHistory =
      serverLog := by
  obtain ⟨h1, h2, h3⟩ :=
    c5_send_message_flow "job1" chatStateWithDraft "t0" serverLog (by decide)
  exact ⟨h1, h2, h3⟩

/-- C8: when the chat POST fails, the final history is the prior history
with exactly one appended entry whose query and timestamp are those of the
pending entry and whose response is the static apology — every earlier
entry is untouched; a failed chat-history GET leaves the chat state
unchanged, and a failed status fetch leaves the page's stored `data`
unchanged. -/
theorem c8_failure_frame_effects
    (jobId : String) (s s2 : ChatState) (now : String) (g : ChatFetchOutcome)
    (ps : PageState) (c r : Nat)
    (h : (jsTrim s.message).isEmpty = false) :
    (sendMessage jobId s now .fail g).1.chatHistory =
      s.chatHistory ++
        [{ timestamp := now, query := s.message, response := apologyMessage }] ∧
    fetchChatHistory s2 .fail = s2 ∧
    (fetchData ps (.httpError c) r).data = ps.data ∧
    (fetchData ps .networkError r).data = ps.data := by
  refine ⟨?_, rfl, rfl, rfl⟩
  simp [sendMessage, sendMessageStart, sendMessageFinish, h,
    updateLast_concat, pendingEntry]

/-- C8 witness: at a concrete draft and a failed POST, the final history
is exactly the apology-completed entry appended to the (empty) prior
history. -/
theorem c8_failure_frame_witness :
    (sendMessage "job1" chatStateWithDraft "t0" .fail .fail).1.chatHistory =
      [{ timestamp := "t0", query := "What is attention?"
         response := apologyMessage }] ∧
    fetchChatHistory initChatState .fail = initChatState ∧
    (fetchData initPageState .networkError 0).data = none := by
  obtain ⟨h1, h2, _, h4⟩ :=
    c8_failure_frame_effects "job1" chatStateWithDraft initChatState "t0"
      .fail initPageState 0 0 (by decide)
  exact ⟨h1, h2, h4⟩

/-! ## C6 -/

/-- An `in_progress` poll leaves the polling flag (and the fact that the
next interval firing will fetch) untouched. -/
theorem fetchData_in_progress_pollingActive
    (s : PageState) (resp : StatusResponse) (r : Nat)
    (h : resp.status = "in_progress") :
    (fetchData s (.ok resp) r).pollingActive = s.pollingActive := by
  by_cases hc : s.progressCounter < 90 <;> simp [fetchData, h, hc]

/-- C6: while every observed response is `in_progress` (the job neither
completed nor failed, and no fetch error occurred), the polling loop stays
armed; each firing of the live interval issues a status request to the
fixed URL with no in-flight guard, and successive firings are separated by
the constant `pollIntervalMs` — there is no backoff. -/
theorem c6_fixed_interval_polling
    (f : Nat → StatusResponse) (g : Nat → Nat) (n : Nat)
    (h : ∀ k, k < n → (f k).status = "in_progress") :
    (runPolls f g initPageState n).pollingActive = true ∧
    pollIssuesRequest (runPolls f g initPageState n) = true ∧
    (∀ k, pollTime (k + 1) - pollTime k = pollIntervalMs) := by
  have hmain : ∀ m, m ≤ n → (runPolls f g initPageState m).pollingActive = true := by
    intro m
    induction m with
    | zero => intro _; rfl
    | succ k ih =>
        intro hk
        have hik := ih (Nat.le_of_succ_le hk)
        have hs : (f k).status = "in_progress" := h k (Nat.lt_of_succ_le hk)
        show (pageStep (runPolls f g initPageState k)
          (.poll (.ok (f k)) (g k))).pollingActive = true
        rw [pageStep, hik]
        simp only [if_true]
        rw [fetchData_in_progress_pollingActive _ _ _ hs, hik]
  refine ⟨hmain n le_rfl, ?_, ?_⟩
  · show (runPolls f g initPageState n).pollingActive = true
    exact hmain n le_rfl
  · intro k
    simp [pollTime, pollIntervalMs, Nat.mul_succ]

/-- C6 witness: two consecutive in-progress polls keep the poller armed,
and the gap between consecutive firing times is 3000 ms. -/
theorem c6_fixed_interval_witness :
    (runPolls (fun _ => inProgressResponse) (fun _ => 0) initPageState 2).pollingActive = true ∧
    pollTime 1 - pollTime 0 = pollIntervalMs ∧
    pollTime 2 - pollTime 1 = pollIntervalMs := by
  obtain ⟨h1, _, h3⟩ :=
    c6_fixed_interval_polling (fun _ => inProgressResponse) (fun _ => 0) 2
      (fun _ _ => rfl)
  exact ⟨h1, h3 0, h3 1⟩

/-! ## C7 -/

/-- C7: after the effect cleanup both intervals are cleared: no event —
any interleaving of further poll or timer firings — changes the state, the
cleared poller issues no request, and in particular the displayed progress
and stored data stay frozen; view state is component-local, so a remount
starts again from `initPageState`. -/
theorem c7_cleanup_stops_timers (s : PageState) (es : List PageEvent) :
    (cleanupPage s).pollingActive = false ∧
    (cleanupPage s).progressTimerActive = false ∧
    pollIssuesRequest (cleanupPage s) = false ∧
    runPage (cleanupPage s) es = cleanupPage s := by
  refine ⟨rfl, rfl, rfl, ?_⟩
  have hstep : ∀ e, pageStep (cleanupPage s) e = cleanupPage s := by
    intro e
    cases e <;> simp [pageStep, cleanupPage]
  induction es with
  | nil => rfl
  | cons e es ih =>
      show runPage (pageStep (cleanupPage s) e) es = cleanupPage s
      rw [hstep e]
      exact ih

/-! ## C9 -/

/-- The poll handler maintains the progress/counter invariant. -/
theorem fetchData_progressInv (s : PageState) (o : FetchOutcome) (r : Nat)
    (h : progressInv s) : progressInv (fetchData s o r) := by
  unfold progressInv at h ⊢
  cases o with
  | ok resp =>
      by_cases h1 : resp.status = "completed"
      · simp [fetchData, h1, h]
      · by_cases h2 : resp.status = "in_progress"
        · by_cases hc : s.progressCounter < 90 <;>
            simp [fetchData, h1, h2, hc, h]
        · by_cases h3 : resp.status = "failed" <;>
            simp [fetchData, h1, h2, h3, h]
  | httpError c => simp [fetchData, h]
  | networkError => simp [fetchData, h]

/-- The progress timer maintains the progress/counter invariant. -/
theorem progressTick_progressInv (s : PageState)
    (h : progressInv s) : progressInv (progressTick s) := by
  unfold progressInv at h ⊢
  by_cases hc : s.progressCounter < 90 <;> simp [progressTick, hc, h]
  omega

/-- Every step maintains the progress/counter invariant. -/
theorem pageStep_progressInv (s : PageState) (e : PageEvent)
    (h : progressInv s) : progressInv (pageStep s e) := by
  cases e with
  | poll o r =>
      by_cases hp : s.pollingActive <;> simp [pageStep, hp, h]
      exact fetchData_progressInv s o r h
  | tick =>
      by_cases hp : s.progressTimerActive <;> simp [pageStep, hp, h]
      exact progressTick_progressInv s h

/-- The poll handler never decreases the local counter. -/
theorem fetchData_counter_mono (s : PageState) (o : FetchOutcome) (r : Nat) :
    s.progressCounter ≤ (fetchData s o r).progressCounter := by
  cases o with
  | ok resp =>
      by_cases h1 : resp.status = "completed"
      · simp [fetchData, h1]
      · by_cases h2 : resp.status = "in_progress"
        · by_cases hc : s.progressCounter < 90 <;>
            simp [fetchData, h1, h2, hc]
        · by_cases h3 : resp.status = "failed" <;> simp [fetchData, h1, h2, h3]
  | httpError c => simp [fetchData]
  | networkError => simp [fetchData]

/-- No step decreases the local counter. -/
theorem pageStep_counter_mono (s : PageState) (e : PageEvent) :
    s.progressCounter ≤ (pageStep s e).progressCounter := by
  cases e with
  | poll o r =>
      by_cases hp : s.pollingActive <;> simp [pageStep, hp]
      exact fetchData_counter_mono s o r
  | tick =>
      by_cases hp : s.progressTimerActive <;>
        simp [pageStep, progressTick, hp]
      by_cases hc : s.progressCounter < 90 <;> simp [hc]

/-- Runs maintain the invariant. -/
theorem runPage_progressInv (s : PageState) (es : List PageEvent)
    (h : progressInv s) : progressInv (runPage s es) := by
  induction es generalizing s with
  | nil => exact h
  | cons e es ih => exact ih (pageStep s e) (pageStep_progressInv s e h)

/-- Runs never decrease the local counter. -/
theorem runPage_counter_mono (s : PageState) (es : List PageEvent) :
    s.progressCounter ≤ (runPage s es).progressCounter := by
  induction es generalizing s with
  | nil => exact le_rfl
  | cons e es ih =>
      exact le_trans (pageStep_counter_mono s e) (ih (pageStep s e))

/-- C9: under every interleaving of the poll handler and the progress
timer starting from the mounted page, the displayed progress never exceeds
90 and is monotonically nondecreasing as further events occur. -/
theorem c9_progress_invariant (es es2 : List PageEvent) :
    (runPage initPageState es).progress ≤ 90 ∧
    (runPage initPageState es).progress ≤
      (runPage initPageState (es ++ es2)).progress := by
  have hinit : progressInv initPageState := by
    unfold progressInv initPageState
    simp
  have h1 := runPage_progressInv initPageState es hinit
  have h2 : runPage initPageState (es ++ es2) =
      runPage (runPage initPageState es) es2 := by
    unfold runPage
    exact List.foldl_append pageStep initPageState es es2
  have h3 := runPage_progressInv (runPage initPageState es) es2 h1
  have h4 := runPage_counter_mono (runPage initPageState es) es2
  unfold progressInv at h1 h3
  constructor
  · rw [h1]; exact min_le_right _ _
  · rw [h2, h1, h3]
    exact min_le_min h4 le_rfl

/-! ## C10 -/

/-- `sendMessage` never touches the panel width. -/
theorem sendMessage_panelWidth (jobId : String) (s : ChatState) (now : String)
    (post : PostOutcome) (g : ChatFetchOutcome) :
    (sendMessage jobId s now post g).1.panelWidth = s.panelWidth := by
  by_cases h : (jsTrim s.message).isEmpty <;>
    cases post <;> cases g <;>
      simp [sendMessage, sendMessageStart, sendMessageFinish,
        fetchChatHistory, h]

/-- A mouse-move during resizing either keeps the width or adopts a value
inside the `[minWidth, maxWidth]` window. -/
theorem handleMouseMove_cases (s : ChatState) (iw cx : Int) :
    (handleMouseMove s iw cx).panelWidth = s.panelWidth ∨
    (minWidth ≤ (handleMouseMove s iw cx).panelWidth ∧
     (handleMouseMove s iw cx).panelWidth ≤ maxWidth) := by
  unfold handleMouseMove
  by_cases hr : s.isResizing
  · simp only [hr, if_true]
    by_cases hb : minWidth ≤ iw - cx ∧ iw - cx ≤ maxWidth
    · right
      simp [hb]
    · left
      rw [if_neg hb]
  · left
    simp [hr]

/-- Every chat-panel step preserves the width bounds. -/
theorem chatStep_widthInv (s : ChatState) (e : ChatEvent)
    (h : widthInv s) : widthInv (chatStep s e) := by
  cases e with
  | send jobId now post g =>
      unfold widthInv at h ⊢
      rw [show chatStep s (.send jobId now post g) =
        (sendMessage jobId s now post g).1 from rfl]
      rw [sendMessage_panelWidth]
      exact h
  | historyFetch o => cases o <;> exact h
  | mouseMove iw cx =>
      rcases handleMouseMove_cases s iw cx with heq | hb
      · unfold widthInv at h ⊢
        rw [show chatStep s (.mouseMove iw cx) = handleMouseMove s iw cx
          from rfl, heq]
        exact h
      · exact hb
  | mouseUp => exact h
  | resizeStart => exact h
  | toggle => exact h
  | draft t => exact h

/-- Runs of chat-panel events preserve the width bounds. -/
theorem runChat_widthInv (s : ChatState) (es : List ChatEvent)
    (h : widthInv s) : widthInv (runChat s es) := by
  induction es generalizing s with
  | nil => exact h
  | cons e es ih => exact ih (chatStep s e) (chatStep_widthInv s e h)

/-- C10: the panel starts at width 384 and, under every sequence of
events, its width stays within `[320, 1200]`; any single resize mouse-move
either keeps the width unchanged or sets it within those bounds; and
sending a message whose text is empty or whitespace-only is a no-op: no
request is posted and the whole panel state, chat history included, is
returned unchanged. -/
theorem c10_panel_invariants (es : List ChatEvent) (jobId now : String)
    (s s2 : ChatState) (iw cx : Int) (post : PostOutcome)
    (g : ChatFetchOutcome)
    (hblank : (jsTrim s2.message).isEmpty = true) :
    initChatState.panelWidth = 384 ∧
    (minWidth ≤ (runChat initChatState es).panelWidth ∧
     (runChat initChatState es).panelWidth ≤ maxWidth) ∧
    ((handleMouseMove s iw cx).panelWidth = s.panelWidth ∨
     (minWidth ≤ (handleMouseMove s iw cx).panelWidth ∧
      (handleMouseMove s iw cx).panelWidth ≤ maxWidth)) ∧
    sendMessage jobId s2 now post g = (s2, none) := by
  refine ⟨rfl, ?_, handleMouseMove_cases s iw cx, ?_⟩
  · exact runChat_widthInv initChatState es (by constructor <;> decide)
  · simp [sendMessage, sendMessageStart, hblank]

/-- C10 witness: from the initial panel, opening and resizing to width 800
keeps the bounds, and sending a whitespace-only draft changes nothing. -/
theorem c10_panel_witness :
    initChatState.panelWidth = 384 ∧
    (minWidth ≤ (runChat initChatState [.resizeStart, .mouseMove 1000 200]).panelWidth ∧
     (runChat initChatState [.resizeStart, .mouseMove 1000 200]).panelWidth ≤ maxWidth) ∧
    sendMessage "job1" chatStateBlankDraft "t0" .ok (.ok (some serverLog)) =
      (chatStateBlankDraft, none) := by
  obtain ⟨h1, h2, _, h4⟩ :=
    c10_panel_invariants [.resizeStart, .mouseMove 1000 200] "job1" "t0"
      initChatState chatStateBlankDraft 1000 200 .ok (.ok (some serverLog))
      (by decide)
  exact ⟨h1, h2, h4⟩
